import Mathlib

/-!
Verification development for the platform2 repository (Go).

The file shallowly embeds the parts of the code the claims are about:

* `internal/transport/fingerprints.go` — the fingerprint catalog and
  default selection.
* `internal/transport/utls_client.go` — `utlsRoundTripper.RoundTrip`,
  `dialUTLS`, `roundTripH2`, `roundTripH1`, and the HTTP/2 connection
  pool, as an instrumented step function over an explicit pool state and
  a network environment record supplying the outcomes of the I/O steps.
* `projects/strike2/proxy/handler.go` — `copyHeaders` and the CONNECT
  target-address resolution.
* `projects/strike2/auth` (`SimpleAuth.ValidateProxyAuth`, `Reject407`)
  — including a byte-level model of Go's `base64.StdEncoding`.
* the `combinedHandler.ServeHTTP` routing/authentication gate.
* `projects/strike2/scraper/scraper.go` — the response-body stage of
  `ScraperService.FetchURL` (gzip fallback and the 10MB read limit).

Bytes are modelled as `Nat` values below 256; byte strings as `List Nat`.
-/

/-! ## Base64 (model of Go `encoding/base64` StdEncoding)

`ValidateProxyAuth` calls `base64.StdEncoding.DecodeString`.  The model
works on byte lists; `b64Char` is the standard alphabet, `b64Val` its
partial inverse.  Decoding follows Go's non-strict standard decoder:
input length must be a multiple of four, padding (`=`, byte 61) is only
accepted at the very end, and unused trailing bits in the final quantum
are ignored rather than rejected. -/

/-- Standard base64 alphabet: maps a 6-bit value to its ASCII code. -/
def b64Char (n : Nat) : Nat :=
  if n < 26 then 65 + n
  else if n < 52 then 97 + (n - 26)
  else if n < 62 then 48 + (n - 52)
  else if n = 62 then 43
  else 47

/-- Inverse alphabet lookup: ASCII code back to the 6-bit value, `none`
for a character outside the standard alphabet (including `=`). -/
def b64Val (c : Nat) : Option Nat :=
  if 65 ≤ c ∧ c ≤ 90 then some (c - 65)
  else if 97 ≤ c ∧ c ≤ 122 then some (26 + (c - 97))
  else if 48 ≤ c ∧ c ≤ 57 then some (52 + (c - 48))
  else if c = 43 then some 62
  else if c = 47 then some 63
  else none

/-- Standard base64 encoding of a byte list (result is a list of ASCII
codes, padded with `=` = 61). Models `base64.StdEncoding.EncodeToString`. -/
def b64Encode : List Nat → List Nat
  | [] => []
  | [b1] => [b64Char (b1 / 4), b64Char (b1 % 4 * 16), 61, 61]
  | [b1, b2] => [b64Char (b1 / 4), b64Char (b1 % 4 * 16 + b2 / 16),
                 b64Char (b2 % 16 * 4), 61]
  | b1 :: b2 :: b3 :: rest =>
      b64Char (b1 / 4) :: b64Char (b1 % 4 * 16 + b2 / 16) ::
      b64Char (b2 % 16 * 4 + b3 / 64) :: b64Char (b3 % 64) :: b64Encode rest

/-- Standard base64 decoding. Models `base64.StdEncoding.DecodeString`:
`none` on a length not divisible by four, on a non-alphabet character,
or on padding anywhere but the end; trailing padding bits are ignored
(Go's default decoder is not strict about them). -/
def b64Decode : List Nat → Option (List Nat)
  | [] => some []
  | c1 :: c2 :: c3 :: c4 :: rest =>
    match b64Val c1, b64Val c2 with
    | some v1, some v2 =>
      if c3 = 61 then
        if c4 = 61 then
          if rest = [] then some [v1 * 4 + v2 / 16] else none
        else none
      else
        match b64Val c3 with
        | some v3 =>
          if c4 = 61 then
            if rest = [] then some [v1 * 4 + v2 / 16, v2 % 16 * 16 + v3 / 4]
            else none
          else
            match b64Val c4 with
            | some v4 =>
              (b64Decode rest).map
                (fun tl => (v1 * 4 + v2 / 16) :: (v2 % 16 * 16 + v3 / 4) ::
                           (v3 % 4 * 64 + v4) :: tl)
            | none => none
        | none => none
    | _, _ => none
  | _ => none

/-! ## Proxy authentication (`projects/strike2/auth`, `src/unnamed/part_006`)

`SimpleAuth.ValidateProxyAuth` (lines 70-92) reads the
`Proxy-Authorization` header (empty when the header is missing), requires
the `Basic ` prefix, base64-decodes the rest, splits the decoded bytes at
the FIRST colon (`strings.SplitN(s, ":", 2)`), and compares the part
after that colon with the configured token. -/

/-- The ASCII bytes of the string `Basic ` (with the trailing space),
checked by `strings.HasPrefix(proxyAuth, "Basic ")` at line 76. -/
def basicPrefixBytes : List Nat := [66, 97, 115, 105, 99, 32]

/-- Model of `strings.SplitN(s, ":", 2)` restricted to the two-part
outcome: split a byte list at the first colon (byte 58). `none` models
the case where no colon occurs (Go returns a one-element slice and the
caller rejects it at line 87-89). -/
def splitOnceColon : List Nat → Option (List Nat × List Nat)
  | [] => none
  | c :: rest =>
    if c = 58 then some ([], rest)
    else (splitOnceColon rest).map (fun p => (c :: p.1, p.2))

/-- Model of `SimpleAuth.ValidateProxyAuth` (part_006 lines 70-92).
`token` is the configured token's bytes; `hdr` is the raw value of the
`Proxy-Authorization` header, `[]` when the header is missing (Go's
`Header.Get` returns the empty string then). -/
def validateProxyAuth (token : List Nat) (hdr : List Nat) : Bool :=
  if hdr = [] then false
  else if hdr.take 6 ≠ basicPrefixBytes then false
  else
    match b64Decode (hdr.drop 6) with
    | none => false
    | some decoded =>
      match splitOnceColon decoded with
      | none => false
      | some p => p.2 == token

/-- Status written by `Reject407` (part_006 line 98):
`http.StatusProxyAuthRequired`. -/
def reject407Status : Nat := 407

/-- Headers written by `Reject407` (part_006 lines 96-97). -/
def reject407Headers : List (String × String) :=
  [("Proxy-Authenticate", "Basic realm=\"Strike2\""),
   ("Content-Type", "text/plain")]

/-! ## Combined routing handler (`combinedHandler.ServeHTTP`)

From the strike2 package root (lines 125-152 of the file holding `New`
and `combinedHandler`): CONNECT always goes to the proxy (503 when the
proxy is disabled); an absolute-URL request goes to the proxy when one
is configured; everything else goes to the API router. On both proxy
paths, when a `SimpleAuth` is configured the request is rejected with
`Reject407` before any forwarding unless `ValidateProxyAuth` accepts. -/

inductive RouteDecision where
  /-- the request is handed to `proxyHandler.ServeHTTP` -/
  | proxyForward
  /-- `auth.Reject407` is written and the handler returns -/
  | reject407
  /-- the request is handed to the API router -/
  | apiRoute
  /-- `503 Proxy not enabled` -/
  | proxyUnavailable
  deriving DecidableEq, Repr

/-- Model of `combinedHandler.ServeHTTP`. `proxyEnabled` is
`proxyHandler != nil`; `authToken` is `some tok` when a `SimpleAuth`
with that token is configured (`simpleAuth != nil`), `none` otherwise;
`proxyAuthHeader` is the inbound `Proxy-Authorization` value. -/
def combinedServeHTTP (proxyEnabled : Bool) (authToken : Option (List Nat))
    (isConnect : Bool) (urlIsAbs : Bool) (proxyAuthHeader : List Nat) :
    RouteDecision :=
  if isConnect then
    if proxyEnabled then
      match authToken with
      | some tok =>
        if validateProxyAuth tok proxyAuthHeader then RouteDecision.proxyForward
        else RouteDecision.reject407
      | none => RouteDecision.proxyForward
    else RouteDecision.proxyUnavailable
  else if urlIsAbs && proxyEnabled then
    match authToken with
    | some tok =>
      if validateProxyAuth tok proxyAuthHeader then RouteDecision.proxyForward
      else RouteDecision.reject407
    | none => RouteDecision.proxyForward
  else RouteDecision.apiRoute

/-! ## Fingerprint catalog (`internal/transport/fingerprints.go`) -/

structure Fingerprint where
  /-- the uTLS ClientHello identifier, kept as its Go expression text -/
  id : String
  name : String
  userAgent : String
  deriving DecidableEq, Repr, Inhabited

/-- Model of `GetFingerprints` (fingerprints.go lines 15-33): the fixed
ordered catalog. -/
def getFingerprints : List Fingerprint :=
  [{ id := "HelloChrome_Auto", name := "Chrome",
     userAgent := "Mozilla/5.0 (Windows NT 10.0; Win64; x64) AppleWebKit/537.36 (KHTML, like Gecko) Chrome/120.0.0.0 Safari/537.36" },
   { id := "HelloFirefox_Auto", name := "Firefox",
     userAgent := "Mozilla/5.0 (Windows NT 10.0; Win64; x64; rv:121.0) Gecko/20100101 Firefox/121.0" },
   { id := "HelloIOS_Auto", name := "Safari",
     userAgent := "Mozilla/5.0 (iPhone; CPU iPhone OS 17_0 like Mac OS X) AppleWebKit/605.1.15 (KHTML, like Gecko) Version/17.0 Mobile/15E148 Safari/604.1" }]

/-- Model of `GetRandomFingerprint` (fingerprints.go lines 36-39): despite
the name it deterministically returns `fps[0]`, the catalog's first
entry. -/
def getRandomFingerprint : Fingerprint := getFingerprints.headI

/-- ASCII lower-casing of one character. `strings.ToLower` is modelled
for ASCII only: the catalog names are pure ASCII, so matching is
unaffected. -/
def lowerAsciiChar (c : Char) : Char :=
  if 65 ≤ c.toNat ∧ c.toNat ≤ 90 then Char.ofNat (c.toNat + 32) else c

/-- ASCII model of `strings.ToLower` (mapped over the character list so
that concrete instances evaluate). -/
def lowerAscii (s : String) : String := String.mk (s.data.map lowerAsciiChar)

/-- Model of `ScraperService.findFingerprint` (scraper.go lines 87-100):
empty name → `GetRandomFingerprint`; otherwise the first
case-insensitive match in the catalog, falling back to
`GetRandomFingerprint`. -/
def findFingerprint (name : String) : Fingerprint :=
  if name = "" then getRandomFingerprint
  else
    match getFingerprints.find? (fun fp => lowerAscii fp.name == lowerAscii name) with
    | some fp => fp
    | none => getRandomFingerprint

/-! ## Header filtering (`projects/strike2/proxy/handler.go`, `copyHeaders`)

Headers are modelled as association lists from a header key to its value
list (Go's `http.Header` is `map[string][]string`; map iteration order is
arbitrary, so any fixed order represents one admissible iteration).
`copyHeaders` (handler.go lines 230-251) walks the source map, skips the
nine hop-by-hop keys, and `Add`s every remaining value into `dst`. It is
called with a freshly created (empty) destination header at both call
sites (outbound request, line 209, and relayed response, line 222). -/

abbrev Header := List (String × List String)

/-- The hop-by-hop key set of handler.go lines 231-241. -/
def hopByHopHeader (k : String) : Bool :=
  k == "Connection" || k == "Keep-Alive" || k == "Proxy-Authenticate" ||
  k == "Proxy-Authorization" || k == "Proxy-Connection" || k == "Te" ||
  k == "Trailer" || k == "Transfer-Encoding" || k == "Upgrade"

/-- Model of `http.Header.Add`: append one value to the key's value
list, creating the key if absent. -/
def headerAdd : Header → String → String → Header
  | [], k, v => [(k, [v])]
  | (k2, vs) :: rest, k, v =>
    if k2 == k then (k2, vs ++ [v]) :: rest
    else (k2, vs) :: headerAdd rest k v

/-- The inner loop of `copyHeaders` (lines 247-249): `Add` each value of
one key in order. -/
def headerAddValues : Header → String → List String → Header
  | dst, _, [] => dst
  | dst, k, v :: vs => headerAddValues (headerAdd dst k v) k vs

/-- Model of `copyHeaders` (handler.go lines 230-251). -/
def copyHeaders (dst : Header) : Header → Header
  | [] => dst
  | (k, vs) :: rest =>
    if hopByHopHeader k then copyHeaders dst rest
    else copyHeaders (headerAddValues dst k vs) rest

/-- Lookup of a key's value list in a header map. -/
def headerGet : Header → String → Option (List String)
  | [], _ => none
  | (k2, vs) :: rest, k => if k2 == k then some vs else headerGet rest k

/-- The keys of a header map. -/
def headerKeys (h : Header) : List String := h.map Prod.fst

/-! ## Destination addresses (default port 443)

Two code sites append the default port: `utlsRoundTripper.RoundTrip`
(utls_client.go lines 122-125) for the HTTP/2 pool key and the dial
address, and `Handler.handleConnect` (handler.go lines 71-74) for the
CONNECT target. Both test `strings.Contains(addr, ":")`; "carries an
explicit port" is therefore modelled as "contains a colon". -/

/-- Model of `strings.Contains(s, ":")` (over the character list so that
concrete instances evaluate). -/
def containsColon (s : String) : Bool := s.data.any (fun a => a == ':')

/-- Pool key / dial address of `RoundTrip` (utls_client.go 122-125). -/
def roundTripAddr (host : String) : String :=
  if containsColon host then host else host ++ ":443"

/-- CONNECT target of `handleConnect` (handler.go 71-74). -/
def connectTargetAddr (hostPort : String) : String :=
  if containsColon hostPort then hostPort else hostPort ++ ":443"

/-! ## The HTTP/2 pool and `utlsRoundTripper.RoundTrip`

`RoundTrip` (utls_client.go lines 117-160) with `dialUTLS` (84-114),
`roundTripH2` (163-181) and `roundTripH1` (184-202) is embedded as an
instrumented step function. The pool `h2ConnPool` is an association list
from address to an abstract connection identifier. The outcomes of the
I/O steps (dial, handshake, negotiated ALPN, the three round trips) are
supplied by an environment record `RTEnv`, one field per I/O step of one
`RoundTrip` call; the function records which effects occurred. -/

abbrev Pool := List (String × Nat)

/-- Map lookup on the pool (`rt.h2ConnPool[addr]`, line 128). -/
def poolLookup : Pool → String → Option Nat
  | [], _ => none
  | (k, c) :: rest, a => if k == a then some c else poolLookup rest a

/-- Map deletion (`delete(rt.h2ConnPool, addr)`, line 137). -/
def poolErase (p : Pool) (a : String) : Pool :=
  p.filter (fun e => !(e.1 == a))

/-- Map overwrite (`rt.h2ConnPool[addr] = h2Conn`, line 177). -/
def poolInsert (p : Pool) (a : String) (c : Nat) : Pool :=
  (a, c) :: poolErase p a

inductive RTError where
  /-- `TCP dial failed: ...` (line 92) -/
  | dialFailed
  /-- `TLS handshake failed: ...` (line 108), including a handshake that
  ran into the deadline set at lines 100-104 -/
  | handshakeFailed
  /-- `unsupported protocol: ...` (line 158) -/
  | unsupportedProtocol (proto : String)
  /-- `failed to create HTTP/2 connection: ...` (line 173) -/
  | h2ConnSetupFailed
  /-- error from `h2Conn.RoundTrip` on the fresh session (line 180) -/
  | h2RoundTripFailed
  /-- error from the HTTP/1.1 round trip (line 195) -/
  | h1RoundTripFailed
  /-- error from `http1Transport.RoundTrip` (line 119) -/
  | plainRoundTripFailed
  deriving DecidableEq, Repr

/-- Environment: the outcome of each I/O step of one `RoundTrip` call.
A round-trip result is `some r` (a response identified by `r`) on
success and `none` on failure. -/
structure RTEnv where
  /-- `h2Conn.CanTakeNewRequest()` (line 131) -/
  poolCanTake : Bool
  /-- result of the round trip on the pooled session (line 132) -/
  pooledResult : Option Nat
  /-- the TCP dial succeeds (lines 90-93) -/
  tcpOk : Bool
  /-- the TLS handshake completes within the deadline (lines 100-109) -/
  handshakeOk : Bool
  /-- `uConn.ConnectionState().NegotiatedProtocol` (line 147) -/
  negotiatedProto : String
  /-- identity of the freshly dialed connection -/
  freshConn : Nat
  /-- `h2Transport.NewClientConn` succeeds (lines 170-174) -/
  h2SetupOk : Bool
  /-- result of `h2Conn.RoundTrip` on the fresh session (line 180) -/
  h2Result : Option Nat
  /-- result of the HTTP/1.1 round trip over the open conn (line 195) -/
  h1Result : Option Nat
  /-- result of `http1Transport.RoundTrip` for non-https (line 119) -/
  plainResult : Option Nat
  deriving DecidableEq, Repr

/-- Output of one `RoundTrip` call: the new pool, the returned value,
and instrumentation recording which effects the call performed. -/
structure RTOut where
  pool : Pool
  result : Except RTError Nat
  /-- a request was issued on the pooled session -/
  usedPooled : Bool
  /-- number of completed uTLS handshakes during this call -/
  handshakeCount : Nat
  /-- request bytes were issued on the freshly dialed connection -/
  issuedOnFresh : Bool
  /-- the freshly dialed connection was closed by this call itself -/
  freshConnClosed : Bool
  deriving Repr

/-- Model of `dialUTLS` (utls_client.go lines 84-114): TCP dial, then a
deadline-bounded TLS handshake; the socket is closed on handshake
failure (line 107) and the deadline cleared on success (line 111). The
pool is not an input: a dial can neither insert nor remove entries. -/
def dialUTLS (env : RTEnv) : Except RTError Nat :=
  if !env.tcpOk then Except.error RTError.dialFailed
  else if !env.handshakeOk then Except.error RTError.handshakeFailed
  else Except.ok env.freshConn

/-- Lines 141-159 plus `roundTripH2`/`roundTripH1`: dial fresh, branch on
the negotiated ALPN value. -/
def dialAndIssue (env : RTEnv) (pool : Pool) (addr : String) : RTOut :=
  match dialUTLS env with
  | Except.error e =>
    { pool := pool, result := Except.error e, usedPooled := false,
      handshakeCount := 0, issuedOnFresh := false,
      freshConnClosed := env.tcpOk }
  | Except.ok conn =>
    if env.negotiatedProto = "h2" then
      if env.h2SetupOk then
        { pool := poolInsert pool addr conn,
          result := match env.h2Result with
                    | some r => Except.ok r
                    | none => Except.error RTError.h2RoundTripFailed,
          usedPooled := false, handshakeCount := 1, issuedOnFresh := true,
          freshConnClosed := false }
      else
        { pool := pool, result := Except.error RTError.h2ConnSetupFailed,
          usedPooled := false, handshakeCount := 1, issuedOnFresh := false,
          freshConnClosed := true }
    else if env.negotiatedProto = "http/1.1" || env.negotiatedProto = "" then
      match env.h1Result with
      | some r =>
        { pool := pool, result := Except.ok r, usedPooled := false,
          handshakeCount := 1, issuedOnFresh := true, freshConnClosed := false }
      | none =>
        { pool := pool, result := Except.error RTError.h1RoundTripFailed,
          usedPooled := false, handshakeCount := 1, issuedOnFresh := true,
          freshConnClosed := true }
    else
      { pool := pool,
        result := Except.error (RTError.unsupportedProtocol env.negotiatedProto),
        usedPooled := false, handshakeCount := 1, issuedOnFresh := false,
        freshConnClosed := true }

/-- Model of `utlsRoundTripper.RoundTrip` (utls_client.go lines 117-160).
Non-https requests take `http1Transport` (lines 118-120). For https the
pool is consulted under the key `roundTripAddr host`; a pooled session
with spare capacity is tried first, and on its failure the entry is
deleted (lines 136-138) and control FALLS THROUGH to the fresh dial at
line 142 within the same call. -/
def roundTrip (env : RTEnv) (pool : Pool) (scheme : String) (host : String) :
    RTOut :=
  if scheme ≠ "https" then
    { pool := pool,
      result := match env.plainResult with
                | some r => Except.ok r
                | none => Except.error RTError.plainRoundTripFailed,
      usedPooled := false, handshakeCount := 0, issuedOnFresh := false,
      freshConnClosed := false }
  else
    let addr := roundTripAddr host
    match poolLookup pool addr with
    | some _ =>
      if env.poolCanTake then
        match env.pooledResult with
        | some r =>
          { pool := pool, result := Except.ok r, usedPooled := true,
            handshakeCount := 0, issuedOnFresh := false,
            freshConnClosed := false }
        | none =>
          let o := dialAndIssue env (poolErase pool addr) addr
          { o with usedPooled := true }
      else dialAndIssue env pool addr
    | none => dialAndIssue env pool addr

/-! ## Scraper response-body stage (`ScraperService.FetchURL`)

scraper.go lines 158-189: after a successful round trip, the body reader
is optionally wrapped in a gzip reader — only when the response carries
`Content-Encoding: gzip` AND `gzip.NewReader` accepts the stream header.
When `gzip.NewReader` rejects the header, the code falls back to reading
`resp.Body` directly — but `NewReader` has ALREADY consumed bytes from
`resp.Body`: it wraps the body in a `bufio.Reader` (an HTTP body is not
a `flate.Reader`) and `io.ReadFull`s the 10-byte gzip header before
validating it, so at least `min(10, |body|)` bytes — typically the whole
first buffered chunk — are gone with the discarded `bufio.Reader`, and
the fallback read yields only the remaining suffix of the wire body.
The selected reader is then read through
`io.LimitReader(reader, 10*1024*1024)`: a longer body is silently
truncated at the cap, never an error. The result's error field is set
only when the read itself fails. -/

/-- The fixed response-body cap of scraper.go line 167: 10MB. -/
def bodySizeCap : Nat := 10 * 1024 * 1024

/-- Environment for the body-reading stage. -/
structure GzipEnv where
  /-- `gzip.NewReader` succeeded, i.e. the gzip stream header is
  well-formed (lines 160-164) -/
  headerOk : Bool
  /-- the bytes the gzip reader yields when `headerOk` -/
  inflated : List Nat
  /-- `io.ReadAll` succeeded (line 167) -/
  readOk : Bool
  /-- how many bytes a FAILED `gzip.NewReader` consumed from `resp.Body`
  before returning its header error: `NewReader` buffers the body and
  `io.ReadFull`s the 10-byte header first, so in the program this is at
  least `min(10, |body|)` and typically the whole first buffered chunk;
  those bytes are lost when the `bufio.Reader` is discarded -/
  consumedPrefix : Nat
  deriving DecidableEq, Repr

/-- The fields of `FetchResponse` this stage determines. -/
structure FetchOutcome where
  statusCode : Nat
  body : List Nat
  /-- whether the `Error` field of the result is set -/
  hasError : Bool
  deriving DecidableEq, Repr

/-- Model of scraper.go lines 158-189: gzip selection (with the prefix a
failed `gzip.NewReader` already consumed from the body), the 10MB
`LimitReader` cap, and the error field. `raw` is the wire body. -/
def fetchProcessResponse (status : Nat) (contentEncodingGzip : Bool)
    (env : GzipEnv) (raw : List Nat) : FetchOutcome :=
  let src :=
    if contentEncodingGzip && env.headerOk then env.inflated
    else if contentEncodingGzip then raw.drop env.consumedPrefix
    else raw
  if env.readOk then
    { statusCode := status, body := src.take bodySizeCap, hasError := false }
  else
    { statusCode := status, body := [], hasError := true }

/-! ## Theorems -/

theorem b64Val_b64Char : ∀ n, n < 64 → b64Val (b64Char n) = some n := by
  decide

theorem b64Char_ne_61 : ∀ n, n < 64 → b64Char n ≠ 61 := by
  decide

/-- Decoding inverts encoding on genuine byte lists. -/
theorem b64Decode_b64Encode :
    ∀ bs : List Nat, (∀ b ∈ bs, b < 256) → b64Decode (b64Encode bs) = some bs := by
  intro bs
  induction bs using b64Encode.induct with
  | case1 =>
    intro _; rfl
  | case2 b1 =>
    intro h
    have hb1 : b1 < 256 := h b1 (by simp)
    have e1 : b64Val (b64Char (b1 / 4)) = some (b1 / 4) :=
      b64Val_b64Char _ (by omega)
    have e2 : b64Val (b64Char (b1 % 4 * 16)) = some (b1 % 4 * 16) :=
      b64Val_b64Char _ (by omega)
    simp only [b64Encode, b64Decode, e1, e2, reduceIte]
    have v1 : b1 / 4 * 4 + b1 % 4 * 16 / 16 = b1 := by omega
    rw [v1]
  | case3 b1 b2 =>
    intro h
    have hb1 : b1 < 256 := h b1 (by simp)
    have hb2 : b2 < 256 := h b2 (by simp)
    have e1 : b64Val (b64Char (b1 / 4)) = some (b1 / 4) :=
      b64Val_b64Char _ (by omega)
    have e2 : b64Val (b64Char (b1 % 4 * 16 + b2 / 16)) =
        some (b1 % 4 * 16 + b2 / 16) := b64Val_b64Char _ (by omega)
    have e3 : b64Val (b64Char (b2 % 16 * 4)) = some (b2 % 16 * 4) :=
      b64Val_b64Char _ (by omega)
    have hne : b64Char (b2 % 16 * 4) ≠ 61 := b64Char_ne_61 _ (by omega)
    simp only [b64Encode, b64Decode, e1, e2, e3, if_neg hne, reduceIte]
    have v1 : b1 / 4 * 4 + (b1 % 4 * 16 + b2 / 16) / 16 = b1 := by omega
    have v2 : (b1 % 4 * 16 + b2 / 16) % 16 * 16 + b2 % 16 * 4 / 4 = b2 := by omega
    rw [v1, v2]
  | case4 b1 b2 b3 rest ih =>
    intro h
    have hb1 : b1 < 256 := h b1 (by simp)
    have hb2 : b2 < 256 := h b2 (by simp)
    have hb3 : b3 < 256 := h b3 (by simp)
    have hrest : ∀ b ∈ rest, b < 256 := by
      intro b hb; exact h b (by simp [hb])
    have e1 : b64Val (b64Char (b1 / 4)) = some (b1 / 4) :=
      b64Val_b64Char _ (by omega)
    have e2 : b64Val (b64Char (b1 % 4 * 16 + b2 / 16)) =
        some (b1 % 4 * 16 + b2 / 16) := b64Val_b64Char _ (by omega)
    have e3 : b64Val (b64Char (b2 % 16 * 4 + b3 / 64)) =
        some (b2 % 16 * 4 + b3 / 64) := b64Val_b64Char _ (by omega)
    have e4 : b64Val (b64Char (b3 % 64)) = some (b3 % 64) :=
      b64Val_b64Char _ (by omega)
    have hne3 : b64Char (b2 % 16 * 4 + b3 / 64) ≠ 61 := b64Char_ne_61 _ (by omega)
    have hne4 : b64Char (b3 % 64) ≠ 61 := b64Char_ne_61 _ (by omega)
    simp only [b64Encode, b64Decode, e1, e2, e3, e4, if_neg hne3, if_neg hne4,
      ih hrest, Option.map_some]
    have v1 : b1 / 4 * 4 + (b1 % 4 * 16 + b2 / 16) / 16 = b1 := by omega
    have v2 : (b1 % 4 * 16 + b2 / 16) % 16 * 16 + (b2 % 16 * 4 + b3 / 64) / 4 = b2 := by
      omega
    have v3 : (b2 % 16 * 4 + b3 / 64) % 4 * 64 + b3 % 64 = b3 := by omega
    rw [v1, v2, v3]
    rfl

/-- Lookup after an insert at the same key finds the inserted value. -/
theorem poolLookup_poolInsert (p : Pool) (a : String) (c : Nat) :
    poolLookup (poolInsert p a c) a = some c := by
  simp [poolInsert, poolLookup]

/-- C8: for every destination host given without an explicit port (no
colon in the host text, as `strings.Contains` tests at both sites), the
HTTP/2 pool key / dial address of `RoundTrip` and the CONNECT target
address both get `:443` appended; a host already carrying a port is used
unchanged by both. Moreover the pool key under which a fresh h2 session
is stored by `RoundTrip` is exactly `roundTripAddr host`. -/
theorem c8_default_port (host : String) :
    (containsColon host = false →
      roundTripAddr host = host ++ ":443" ∧
      connectTargetAddr host = host ++ ":443") ∧
    (containsColon host = true →
      roundTripAddr host = host ∧ connectTargetAddr host = host) ∧
    (∀ env : RTEnv, env.tcpOk = true → env.handshakeOk = true →
      env.negotiatedProto = "h2" → env.h2SetupOk = true →
      poolLookup (roundTrip env [] "https" host).pool (roundTripAddr host) =
        some env.freshConn) := by
  refine ⟨?_, ?_, ?_⟩
  · intro h; simp [roundTripAddr, connectTargetAddr, h]
  · intro h; simp [roundTripAddr, connectTargetAddr, h]
  · intro env htcp hhs hproto hsetup
    simp [roundTrip, poolLookup, dialAndIssue, dialUTLS, htcp, hhs, hproto,
      hsetup, poolLookup_poolInsert]

/-- C8 witness: `example.com` gets the default port appended (both
sites), `example.com:8080` is kept unchanged, and a fresh h2 session for
`example.com` lands in the pool under the key `example.com:443`. -/
theorem c8_default_port_witness :
    (roundTripAddr "example.com" = "example.com" ++ ":443" ∧
      connectTargetAddr "example.com" = "example.com" ++ ":443") ∧
    (roundTripAddr "example.com:8080" = "example.com:8080" ∧
      connectTargetAddr "example.com:8080" = "example.com:8080") ∧
    poolLookup
      (roundTrip ⟨true, none, true, true, "h2", 5, true, some 9, none, none⟩
        [] "https" "example.com").pool (roundTripAddr "example.com") = some 5 :=
  ⟨(c8_default_port "example.com").1 (by decide),
   ⟨((c8_default_port "example.com:8080").2.1 (by decide)).1,
    ((c8_default_port "example.com:8080").2.1 (by decide)).2⟩,
   (c8_default_port "example.com").2.2
     ⟨true, none, true, true, "h2", 5, true, some 9, none, none⟩ rfl rfl rfl rfl⟩

/-- C10 counterexample: a 12-byte response body whose gzip header is
malformed. Even with the minimal possible consumption (the 10 header
bytes `io.ReadFull` took before `gzip.NewReader` failed), the fallback
read returns only the 2-byte suffix — NOT the raw compressed bytes the
claim asserts — though indeed without an error. -/
theorem c10_counterexample :
    (fetchProcessResponse 200 true ⟨false, [], true, 10⟩
        [0, 1, 2, 3, 4, 5, 6, 7, 8, 9, 10, 11]).body = [10, 11] ∧
    (fetchProcessResponse 200 true ⟨false, [], true, 10⟩
        [0, 1, 2, 3, 4, 5, 6, 7, 8, 9, 10, 11]).body ≠
      [0, 1, 2, 3, 4, 5, 6, 7, 8, 9, 10, 11] ∧
    (fetchProcessResponse 200 true ⟨false, [], true, 10⟩
        [0, 1, 2, 3, 4, 5, 6, 7, 8, 9, 10, 11]).hasError = false := by
  refine ⟨rfl, by decide, rfl⟩

/-- C10 amended: with `Content-Encoding: gzip` and a well-formed gzip
stream, `FetchURL` returns the decompressed content (cap applied to the
decompressed bytes) with no error. With a header-malformed gzip stream
it still reports no error, but it does NOT return the raw compressed
bytes: the failed `gzip.NewReader` already consumed a prefix of the
body (its `consumedPrefix`, at least the 10 header bytes, typically the
whole first buffered chunk), so the result body is only the remaining
suffix — empty whenever everything was consumed. -/
theorem c10_gzip_amended (status : Nat) (env : GzipEnv) (raw : List Nat)
    (hread : env.readOk = true) :
    (env.headerOk = true →
      fetchProcessResponse status true env raw =
        { statusCode := status, body := env.inflated.take bodySizeCap,
          hasError := false }) ∧
    (env.headerOk = false →
      fetchProcessResponse status true env raw =
        { statusCode := status,
          body := (raw.drop env.consumedPrefix).take bodySizeCap,
          hasError := false }) ∧
    (env.headerOk = false → raw.length ≤ env.consumedPrefix →
      (fetchProcessResponse status true env raw).body = []) := by
  refine ⟨?_, ?_, ?_⟩
  · intro h
    simp [fetchProcessResponse, hread, h]
  · intro h
    simp [fetchProcessResponse, hread, h]
  · intro h hlen
    simp [fetchProcessResponse, hread, h, List.drop_eq_nil_of_le hlen]

/-- C10 amended witness: a well-formed gzip response decompresses with
no error; a 12-byte header-malformed body whose first chunk was fully
consumed by the failed `gzip.NewReader` comes back empty, again with no
error. -/
theorem c10_gzip_amended_witness :
    fetchProcessResponse 200 true ⟨true, [104, 105], true, 10⟩
        [31, 139, 8] =
      { statusCode := 200, body := [104, 105].take bodySizeCap,
        hasError := false } ∧
    fetchProcessResponse 200 true ⟨false, [], true, 12⟩
        [0, 1, 2, 3, 4, 5, 6, 7, 8, 9, 10, 11] =
      { statusCode := 200,
        body := ([0, 1, 2, 3, 4, 5, 6, 7, 8, 9, 10, 11].drop 12).take
          bodySizeCap,
        hasError := false } ∧
    (fetchProcessResponse 200 true ⟨false, [], true, 12⟩
        [0, 1, 2, 3, 4, 5, 6, 7, 8, 9, 10, 11]).body = [] :=
  ⟨(c10_gzip_amended 200 ⟨true, [104, 105], true, 10⟩ [31, 139, 8] rfl).1
      rfl,
   (c10_gzip_amended 200 ⟨false, [], true, 12⟩
      [0, 1, 2, 3, 4, 5, 6, 7, 8, 9, 10, 11] rfl).2.1 rfl,
   (c10_gzip_amended 200 ⟨false, [], true, 12⟩
      [0, 1, 2, 3, 4, 5, 6, 7, 8, 9, 10, 11] rfl).2.2 rfl (by decide)⟩

/-- C3 counterexample: a successfully-read response body one byte over
the 10MB cap does NOT set the error field — `FetchURL` silently
truncates (`io.ReadAll(io.LimitReader(reader, 10*1024*1024))` at
scraper.go line 167), contradicting the claimed `BodyTooLarge` failure. -/
theorem c3_counterexample :
    (fetchProcessResponse 200 false ⟨false, [], true, 0⟩
        (List.replicate (bodySizeCap + 1) 65)).hasError = false ∧
    (List.replicate (bodySizeCap + 1) 65).length > bodySizeCap := by
  constructor
  · rfl
  · simp [List.length_replicate]

/-- C3 amended: a fetch whose (successfully read) response body exceeds
the 10MB cap does not fail; the result carries no error and its body is
the first 10MB (`raw.take bodySizeCap`, of length exactly the cap) — a
silent truncation, not a `BodyTooLarge` error. -/
theorem c3_truncation (status : Nat) (env : GzipEnv) (raw : List Nat)
    (hread : env.readOk = true) (hlen : raw.length > bodySizeCap) :
    (fetchProcessResponse status false env raw).hasError = false ∧
    (fetchProcessResponse status false env raw).body = raw.take bodySizeCap ∧
    ((fetchProcessResponse status false env raw).body).length = bodySizeCap := by
  refine ⟨?_, ?_, ?_⟩ <;> simp [fetchProcessResponse, hread, List.length_take]
  omega

/-- C3 amended witness: a body one byte over the cap is truncated to
exactly the cap with no error. -/
theorem c3_truncation_witness :
    (fetchProcessResponse 200 false ⟨false, [], true, 0⟩
        (List.replicate (bodySizeCap + 1) 66)).hasError = false ∧
    (fetchProcessResponse 200 false ⟨false, [], true, 0⟩
        (List.replicate (bodySizeCap + 1) 66)).body =
      (List.replicate (bodySizeCap + 1) 66).take bodySizeCap ∧
    ((fetchProcessResponse 200 false ⟨false, [], true, 0⟩
        (List.replicate (bodySizeCap + 1) 66)).body).length = bodySizeCap :=
  c3_truncation 200 ⟨false, [], true, 0⟩ (List.replicate (bodySizeCap + 1) 66)
    rfl (by simp [List.length_replicate])

/-- C5: when there is no pooled attempt for the destination key (no
entry, or an entry without spare capacity), a TCP dial failure or a TLS
handshake failure (the handshake deadline of `dialUTLS` included) makes
`RoundTrip` return an error and leaves the pool exactly as it was: no
entry is inserted and none is removed; no handshake completes and no
request is issued. -/
theorem c5_dial_failure_pool_unchanged (env : RTEnv) (pool : Pool)
    (host : String)
    (hmiss : poolLookup pool (roundTripAddr host) = none ∨
      env.poolCanTake = false)
    (hfail : env.tcpOk = false ∨ env.handshakeOk = false) :
    (roundTrip env pool "https" host).pool = pool ∧
    (env.tcpOk = false →
      (roundTrip env pool "https" host).result =
        Except.error RTError.dialFailed) ∧
    (env.tcpOk = true → env.handshakeOk = false →
      (roundTrip env pool "https" host).result =
        Except.error RTError.handshakeFailed) ∧
    (roundTrip env pool "https" host).handshakeCount = 0 ∧
    (roundTrip env pool "https" host).issuedOnFresh = false := by
  have hd : ∀ p : Pool, (dialAndIssue env p (roundTripAddr host)).pool = p ∧
      (env.tcpOk = false →
        (dialAndIssue env p (roundTripAddr host)).result =
          Except.error RTError.dialFailed) ∧
      (env.tcpOk = true → env.handshakeOk = false →
        (dialAndIssue env p (roundTripAddr host)).result =
          Except.error RTError.handshakeFailed) ∧
      (dialAndIssue env p (roundTripAddr host)).handshakeCount = 0 ∧
      (dialAndIssue env p (roundTripAddr host)).issuedOnFresh = false := by
    intro p
    rcases hfail with h | h
    · simp [dialAndIssue, dialUTLS, h]
    · rcases htcp : env.tcpOk
      · simp [dialAndIssue, dialUTLS, htcp]
      · simp [dialAndIssue, dialUTLS, htcp, h]
  rcases hl : poolLookup pool (roundTripAddr host) with _ | c
  · simpa [roundTrip, hl] using hd pool
  · rcases hmiss with h | h
    · rw [hl] at h; cases h
    · simpa [roundTrip, hl, h] using hd pool

/-- C5 witness: with an empty pool and a failing TCP dial (and, second
conjunct, a failing handshake), the pool stays empty and the call
errors. -/
theorem c5_dial_failure_witness :
    ((roundTrip ⟨true, none, false, true, "h2", 3, true, none, none, none⟩
        [] "https" "example.com").pool = ([] : Pool) ∧
      (roundTrip ⟨true, none, false, true, "h2", 3, true, none, none, none⟩
        [] "https" "example.com").result = Except.error RTError.dialFailed) ∧
    ((roundTrip ⟨true, none, true, false, "h2", 3, true, none, none, none⟩
        [] "https" "example.com").pool = ([] : Pool) ∧
      (roundTrip ⟨true, none, true, false, "h2", 3, true, none, none, none⟩
        [] "https" "example.com").result =
          Except.error RTError.handshakeFailed) :=
  ⟨⟨(c5_dial_failure_pool_unchanged
        ⟨true, none, false, true, "h2", 3, true, none, none, none⟩ []
        "example.com" (Or.inl rfl) (Or.inl rfl)).1,
    (c5_dial_failure_pool_unchanged
        ⟨true, none, false, true, "h2", 3, true, none, none, none⟩ []
        "example.com" (Or.inl rfl) (Or.inl rfl)).2.1 rfl⟩,
   ⟨(c5_dial_failure_pool_unchanged
        ⟨true, none, true, false, "h2", 3, true, none, none, none⟩ []
        "example.com" (Or.inl rfl) (Or.inr rfl)).1,
    (c5_dial_failure_pool_unchanged
        ⟨true, none, true, false, "h2", 3, true, none, none, none⟩ []
        "example.com" (Or.inl rfl) (Or.inr rfl)).2.2.1 rfl rfl⟩⟩

/-- Erasing a key removes it from the pool map. -/
theorem poolLookup_poolErase (p : Pool) (a : String) :
    poolLookup (poolErase p a) a = none := by
  induction p with
  | nil => rfl
  | cons kv rest ih =>
    by_cases h : kv.1 == a
    · simpa [poolErase, h] using ih
    · simpa [poolErase, poolLookup, h] using ih

/-- C4: once a fresh handshake has completed (no usable pooled entry, TCP
and TLS both succeed), the three ALPN values `h2`, `http/1.1` and the
empty string — and only those — lead to the request being issued:
`h2` stores the wrapped session in the pool under the destination key and
issues on it; `http/1.1`/empty issue directly on the already-open
connection (exactly one handshake happens in the call); any other
negotiated value closes the connection immediately and returns the hard
`unsupported protocol` error without issuing the request or touching the
pool. -/
theorem c4_alpn_dispatch (env : RTEnv) (pool : Pool) (host : String)
    (hmiss : poolLookup pool (roundTripAddr host) = none)
    (htcp : env.tcpOk = true) (hhs : env.handshakeOk = true) :
    (env.negotiatedProto = "h2" → env.h2SetupOk = true →
      (roundTrip env pool "https" host).pool =
        poolInsert pool (roundTripAddr host) env.freshConn ∧
      (roundTrip env pool "https" host).issuedOnFresh = true ∧
      (roundTrip env pool "https" host).handshakeCount = 1 ∧
      (roundTrip env pool "https" host).result =
        (match env.h2Result with
         | some r => Except.ok r
         | none => Except.error RTError.h2RoundTripFailed)) ∧
    ((env.negotiatedProto = "http/1.1" ∨ env.negotiatedProto = "") →
      (roundTrip env pool "https" host).pool = pool ∧
      (roundTrip env pool "https" host).issuedOnFresh = true ∧
      (roundTrip env pool "https" host).handshakeCount = 1 ∧
      (roundTrip env pool "https" host).result =
        (match env.h1Result with
         | some r => Except.ok r
         | none => Except.error RTError.h1RoundTripFailed)) ∧
    (env.negotiatedProto ≠ "h2" → env.negotiatedProto ≠ "http/1.1" →
      env.negotiatedProto ≠ "" →
      (roundTrip env pool "https" host).result =
        Except.error (RTError.unsupportedProtocol env.negotiatedProto) ∧
      (roundTrip env pool "https" host).freshConnClosed = true ∧
      (roundTrip env pool "https" host).issuedOnFresh = false ∧
      (roundTrip env pool "https" host).pool = pool) := by
  refine ⟨?_, ?_, ?_⟩
  · intro hp hsetup
    simp [roundTrip, hmiss, dialAndIssue, dialUTLS, htcp, hhs, hp, hsetup]
  · intro hp
    rcases hp with hp | hp <;>
      rcases hh1 : env.h1Result with _ | r <;>
      simp [roundTrip, hmiss, dialAndIssue, dialUTLS, htcp, hhs, hp, hh1]
  · intro h2ne h1ne hempty
    simp [roundTrip, hmiss, dialAndIssue, dialUTLS, htcp, hhs, h2ne, h1ne,
      hempty]

/-- C4 witness: with an empty pool, ALPN `h2` issues and pools the
session; `http/1.1` issues directly without pooling; the unexpected
value `spdy/3` errors, closes the connection and leaves the pool
empty. -/
theorem c4_alpn_dispatch_witness :
    ((roundTrip ⟨true, none, true, true, "h2", 4, true, some 11, none, none⟩
        [] "https" "example.com").pool =
      poolInsert [] (roundTripAddr "example.com") 4 ∧
     (roundTrip ⟨true, none, true, true, "h2", 4, true, some 11, none, none⟩
        [] "https" "example.com").result = Except.ok 11) ∧
    ((roundTrip ⟨true, none, true, true, "http/1.1", 4, true, none, some 12,
        none⟩ [] "https" "example.com").pool = ([] : Pool) ∧
     (roundTrip ⟨true, none, true, true, "http/1.1", 4, true, none, some 12,
        none⟩ [] "https" "example.com").result = Except.ok 12) ∧
    ((roundTrip ⟨true, none, true, true, "spdy/3", 4, true, none, none, none⟩
        [] "https" "example.com").result =
      Except.error (RTError.unsupportedProtocol "spdy/3") ∧
     (roundTrip ⟨true, none, true, true, "spdy/3", 4, true, none, none, none⟩
        [] "https" "example.com").freshConnClosed = true) :=
  ⟨⟨((c4_alpn_dispatch
        ⟨true, none, true, true, "h2", 4, true, some 11, none, none⟩ []
        "example.com" rfl rfl rfl).1 rfl rfl).1,
    ((c4_alpn_dispatch
        ⟨true, none, true, true, "h2", 4, true, some 11, none, none⟩ []
        "example.com" rfl rfl rfl).1 rfl rfl).2.2.2⟩,
   ⟨((c4_alpn_dispatch
        ⟨true, none, true, true, "http/1.1", 4, true, none, some 12, none⟩ []
        "example.com" rfl rfl rfl).2.1 (Or.inl rfl)).1,
    ((c4_alpn_dispatch
        ⟨true, none, true, true, "http/1.1", 4, true, none, some 12, none⟩ []
        "example.com" rfl rfl rfl).2.1 (Or.inl rfl)).2.2.2⟩,
   ⟨((c4_alpn_dispatch
        ⟨true, none, true, true, "spdy/3", 4, true, none, none, none⟩ []
        "example.com" rfl rfl rfl).2.2 (by decide) (by decide) (by decide)).1,
    ((c4_alpn_dispatch
        ⟨true, none, true, true, "spdy/3", 4, true, none, none, none⟩ []
        "example.com" rfl rfl rfl).2.2 (by decide) (by decide) (by decide)).2.1⟩⟩

/-- C1 counterexample: a pooled session for `example.com:443` reports
spare capacity and its round trip fails mid-flight; the very same
`RoundTrip` call then performs a fresh handshake (`handshakeCount = 1`),
retries the request on the fresh connection, and returns that SUCCESS
(`Except.ok 7`) to the caller — not the pooled failure, and not only on
a subsequent call, contradicting the claimed no-retry behavior. The
evicted entry is even replaced by the fresh session within the call. -/
theorem c1_counterexample :
    (roundTrip ⟨true, none, true, true, "h2", 2, true, some 7, none, none⟩
        [("example.com:443", 1)] "https" "example.com").result =
      Except.ok 7 ∧
    (roundTrip ⟨true, none, true, true, "h2", 2, true, some 7, none, none⟩
        [("example.com:443", 1)] "https" "example.com").usedPooled = true ∧
    (roundTrip ⟨true, none, true, true, "h2", 2, true, some 7, none, none⟩
        [("example.com:443", 1)] "https" "example.com").handshakeCount = 1 ∧
    poolLookup
      (roundTrip ⟨true, none, true, true, "h2", 2, true, some 7, none, none⟩
        [("example.com:443", 1)] "https" "example.com").pool
      "example.com:443" = some 2 :=
  ⟨rfl, rfl, rfl, rfl⟩

/-- C1 amended: when the pooled session with spare capacity fails
mid-flight, `RoundTrip` evicts the entry and then — within the SAME call
— falls through to one fresh dial/handshake for that destination and
returns the fresh attempt's outcome (the pooled failure itself is never
returned; the caller sees whatever the in-call retry produces). -/
theorem c1_pooled_failure_fallthrough (env : RTEnv) (pool : Pool)
    (host : String) (c : Nat)
    (hhit : poolLookup pool (roundTripAddr host) = some c)
    (hcap : env.poolCanTake = true)
    (hfail : env.pooledResult = none) :
    roundTrip env pool "https" host =
      { dialAndIssue env (poolErase pool (roundTripAddr host))
          (roundTripAddr host) with usedPooled := true } ∧
    poolLookup (poolErase pool (roundTripAddr host)) (roundTripAddr host) =
      none := by
  constructor
  · simp [roundTrip, hhit, hcap, hfail]
  · exact poolLookup_poolErase pool (roundTripAddr host)

/-- C1 amended witness: with a pooled entry whose round trip fails and a
fresh dial that also fails, the call behaves exactly as the fall-through
fresh attempt on the evicted pool. -/
theorem c1_pooled_failure_fallthrough_witness :
    roundTrip ⟨true, none, false, true, "h2", 2, true, none, none, none⟩
        [("example.com:443", 1)] "https" "example.com" =
      { dialAndIssue ⟨true, none, false, true, "h2", 2, true, none, none, none⟩
          (poolErase [("example.com:443", 1)] (roundTripAddr "example.com"))
          (roundTripAddr "example.com") with usedPooled := true } ∧
    poolLookup
      (poolErase [("example.com:443", 1)] (roundTripAddr "example.com"))
      (roundTripAddr "example.com") = none :=
  c1_pooled_failure_fallthrough
    ⟨true, none, false, true, "h2", 2, true, none, none, none⟩
    [("example.com:443", 1)] "example.com" 1 rfl rfl rfl

/-- A successful colon split decomposes the input: the part before the
first colon (colon-free) and the part after it. -/
theorem splitOnceColon_some (d : List Nat) :
    ∀ u rest, splitOnceColon d = some (u, rest) →
      d = u ++ 58 :: rest ∧ 58 ∉ u := by
  induction d with
  | nil => intro u rest h; simp [splitOnceColon] at h
  | cons c tail ih =>
    intro u rest h
    by_cases hc : c = 58
    · subst hc
      simp [splitOnceColon] at h
      obtain ⟨hu, hr⟩ := h
      subst hu; subst hr
      simp
    · rcases hsp : splitOnceColon tail with _ | q
      · simp [splitOnceColon, hc, hsp] at h
      · simp [splitOnceColon, hc, hsp] at h
        obtain ⟨hu, hr⟩ := h
        subst hu; subst hr
        obtain ⟨hd2, hnin⟩ := ih q.1 q.2 hsp
        constructor
        · simp [hd2]
        · intro hm
          rcases List.mem_cons.mp hm with h58 | h58
          · exact hc h58.symm
          · exact hnin h58

/-- Splitting `user ++ ":" ++ rest` at the first colon recovers the two
parts when `user` is colon-free. -/
theorem splitOnceColon_append (user rest : List Nat) (h : 58 ∉ user) :
    splitOnceColon (user ++ 58 :: rest) = some (user, rest) := by
  induction user with
  | nil => simp [splitOnceColon]
  | cons c u ih =>
    have hc : c ≠ 58 := by
      intro e; exact h (by simp [e])
    have hu : 58 ∉ u := fun hm => h (List.mem_cons_of_mem _ hm)
    simp [splitOnceColon, hc, ih hu]

/-- Characterization of `ValidateProxyAuth`: it accepts exactly the
headers `Basic s` where `s` base64-decodes to `user ++ ":" ++ token`
with a colon-free `user`. -/
theorem validateProxyAuth_iff (token hdr : List Nat) :
    validateProxyAuth token hdr = true ↔
      ∃ s user, hdr = basicPrefixBytes ++ s ∧
        b64Decode s = some (user ++ 58 :: token) ∧ 58 ∉ user := by
  constructor
  · intro h
    unfold validateProxyAuth at h
    by_cases h0 : hdr = []
    · simp [h0] at h
    rw [if_neg h0] at h
    by_cases h6 : hdr.take 6 ≠ basicPrefixBytes
    · rw [if_pos h6] at h; cases h
    rw [if_neg h6] at h
    push_neg at h6
    rcases hd : b64Decode (hdr.drop 6) with _ | d
    · simp only [hd] at h; cases h
    simp only [hd] at h
    rcases hs : splitOnceColon d with _ | p
    · simp only [hs] at h; cases h
    simp only [hs, beq_iff_eq] at h
    obtain ⟨hdeq, hnin⟩ := splitOnceColon_some d p.1 p.2 (by rw [hs])
    refine ⟨hdr.drop 6, p.1, ?_, ?_, hnin⟩
    · conv_lhs => rw [← List.take_append_drop 6 hdr]
      rw [h6]
    · rw [hd, hdeq, h]
  · rintro ⟨s, user, rfl, hdec, hnin⟩
    unfold validateProxyAuth
    rw [if_neg (by simp [basicPrefixBytes])]
    have ht : (basicPrefixBytes ++ s).take 6 = basicPrefixBytes := by
      rw [show (6 : Nat) = basicPrefixBytes.length from rfl, List.take_left]
    rw [if_neg (by simp [ht])]
    have hdrop : (basicPrefixBytes ++ s).drop 6 = s := by
      rw [show (6 : Nat) = basicPrefixBytes.length from rfl, List.drop_left]
    rw [hdrop]
    simp [hdec, splitOnceColon_append user token hnin]

/-- C6 counterexample: with configured token `t` (byte 116) and username
`:` (byte 58), the header `Basic base64(username ++ ":" ++ token)` =
`Basic base64([58, 58, 116])` is REJECTED, because `strings.SplitN`
splits at the first colon, making the compared token `":t"` instead of
`"t"` — the claim's `for every username string` fails. -/
theorem c6_counterexample :
    validateProxyAuth [116]
      (basicPrefixBytes ++ b64Encode ([58] ++ 58 :: [116])) = false := by
  decide

/-- C6 amended: `ValidateProxyAuth` returns true exactly for headers
`Basic s` where `s` base64-decodes to `user ++ ":" ++ T` with `T` the
configured token and `user` containing NO colon (in particular for
`Basic base64(user ++ ":" ++ T)` for every colon-free username); every
other value — missing header, non-Basic scheme, undecodable base64,
decoded credentials without a colon, or a different token — is
rejected. -/
theorem c6_validate_amended :
    (∀ token hdr : List Nat,
      validateProxyAuth token hdr = true ↔
        ∃ s user, hdr = basicPrefixBytes ++ s ∧
          b64Decode s = some (user ++ 58 :: token) ∧ 58 ∉ user) ∧
    (∀ user token : List Nat, 58 ∉ user → (∀ b ∈ user, b < 256) →
      (∀ b ∈ token, b < 256) →
      validateProxyAuth token
        (basicPrefixBytes ++ b64Encode (user ++ 58 :: token)) = true) := by
  constructor
  · exact validateProxyAuth_iff
  · intro user token hnin huser htok
    rw [validateProxyAuth_iff]
    refine ⟨b64Encode (user ++ 58 :: token), user, rfl, ?_, hnin⟩
    apply b64Decode_b64Encode
    intro b hb
    rcases List.mem_append.mp hb with h | h
    · exact huser b h
    · rcases List.mem_cons.mp h with rfl | h
      · omega
      · exact htok b h

/-- C6 amended witness: username `u` (byte 117) with token `t`
(byte 116) is accepted through the full base64 encoding. -/
theorem c6_validate_amended_witness :
    validateProxyAuth [116]
      (basicPrefixBytes ++ b64Encode ([117] ++ 58 :: [116])) = true :=
  c6_validate_amended.2 [117] [116] (by decide) (by decide) (by decide)

/-- C2: with the proxy handler present and a proxy token configured,
every CONNECT request and every absolute-URL request is checked by
`ValidateProxyAuth` before dispatch; on failure the decision is the
`Reject407` path — status 407 carrying the `Proxy-Authenticate`
challenge — and the request is never handed to the proxy handler (so no
outbound dial or round trip can occur); on success it is forwarded. -/
theorem c2_auth_gate (tok hdr : List Nat) (isConnect urlIsAbs : Bool)
    (hreq : isConnect = true ∨ urlIsAbs = true) :
    (validateProxyAuth tok hdr = false →
      combinedServeHTTP true (some tok) isConnect urlIsAbs hdr =
        RouteDecision.reject407) ∧
    (validateProxyAuth tok hdr = true →
      combinedServeHTTP true (some tok) isConnect urlIsAbs hdr =
        RouteDecision.proxyForward) ∧
    RouteDecision.reject407 ≠ RouteDecision.proxyForward ∧
    reject407Status = 407 ∧
    reject407Headers.lookup "Proxy-Authenticate" =
      some "Basic realm=\"Strike2\"" := by
  refine ⟨?_, ?_, by decide, rfl, rfl⟩
  · intro hv
    rcases hic : isConnect
    · rcases hreq with h | h
      · rw [hic] at h; cases h
      · simp [combinedServeHTTP, hic, h, hv]
    · simp [combinedServeHTTP, hic, hv]
  · intro hv
    rcases hic : isConnect
    · rcases hreq with h | h
      · rw [hic] at h; cases h
      · simp [combinedServeHTTP, hic, h, hv]
    · simp [combinedServeHTTP, hic, hv]

/-- C2 witness: a CONNECT with a garbage header is rejected with 407; an
absolute-URL request with a correct `Basic base64("u:tok")` header is
forwarded. -/
theorem c2_auth_gate_witness :
    combinedServeHTTP true (some [116, 111, 107]) true false [120] =
      RouteDecision.reject407 ∧
    combinedServeHTTP true (some [116, 111, 107]) false true
      (basicPrefixBytes ++ b64Encode [117, 58, 116, 111, 107]) =
      RouteDecision.proxyForward :=
  ⟨(c2_auth_gate [116, 111, 107] [120] true false (Or.inl rfl)).1 (by decide),
   (c2_auth_gate [116, 111, 107]
      (basicPrefixBytes ++ b64Encode [117, 58, 116, 111, 107]) false true
      (Or.inr rfl)).2.1 (by decide)⟩

/-- C9: for every name that case-insensitively matches a catalog entry,
`findFingerprint` returns exactly that profile; for every name matching
no entry — the empty name included — it returns the documented default,
which is deterministically the catalog's first entry (`Chrome`), and
selection can never fail. -/
theorem c9_fingerprint_selection (name : String) :
    (∀ fp ∈ getFingerprints, lowerAscii name = lowerAscii fp.name →
      findFingerprint name = fp) ∧
    ((∀ fp ∈ getFingerprints, lowerAscii name ≠ lowerAscii fp.name) →
      findFingerprint name = getRandomFingerprint) ∧
    findFingerprint "" = getRandomFingerprint ∧
    getRandomFingerprint = getFingerprints.headI ∧
    getRandomFingerprint.name = "Chrome" := by
  refine ⟨?_, ?_, ?_, rfl, rfl⟩
  · intro fp hfp heq
    have hne : name ≠ "" := by
      intro h0
      rw [h0] at heq
      have hcat : fp ∈ getFingerprints := hfp
      simp [getFingerprints] at hcat
      rcases hcat with rfl | rfl | rfl <;> exact absurd heq (by decide)
    have hcat : fp ∈ getFingerprints := hfp
    simp [getFingerprints] at hcat
    unfold findFingerprint
    rw [if_neg hne]
    rcases hcat with rfl | rfl | rfl <;>
      simp only [getFingerprints, List.find?, heq] <;> decide
  · intro hall
    by_cases h0 : name = ""
    · simp [findFingerprint, h0]
    unfold findFingerprint
    rw [if_neg h0]
    rw [List.find?_eq_none.mpr ?nf]
    case nf =>
      intro fp hfp
      simp only [beq_iff_eq]
      exact fun he => hall fp hfp he.symm
  · rfl

/-- C9 witness: the upper-cased known name `FIREFOX` selects the Firefox
profile exactly; the unknown name `opera` falls back to the default. -/
theorem c9_fingerprint_selection_witness :
    findFingerprint "FIREFOX" =
      { id := "HelloFirefox_Auto", name := "Firefox",
        userAgent := "Mozilla/5.0 (Windows NT 10.0; Win64; x64; rv:121.0) Gecko/20100101 Firefox/121.0" } ∧
    findFingerprint "opera" = getRandomFingerprint :=
  ⟨(c9_fingerprint_selection "FIREFOX").1
      { id := "HelloFirefox_Auto", name := "Firefox",
        userAgent := "Mozilla/5.0 (Windows NT 10.0; Win64; x64; rv:121.0) Gecko/20100101 Firefox/121.0" }
      (by decide) (by decide),
   (c9_fingerprint_selection "opera").2.1 (by decide)⟩

/-- Adding a value for a key absent from `dst` appends a fresh entry. -/
theorem headerAdd_of_absent (dst : Header) (k : String) (v : String)
    (h : headerGet dst k = none) : headerAdd dst k v = dst ++ [(k, [v])] := by
  induction dst with
  | nil => rfl
  | cons kv rest ih =>
    obtain ⟨k2, vs⟩ := kv
    by_cases hk : k2 == k
    · simp [headerGet, hk] at h
    · simp [headerGet, hk] at h
      simp [headerAdd, hk, ih h]

/-- Adding a value when the key sits as the freshly appended last entry
extends that entry's value list. -/
theorem headerAdd_last (dst : Header) (k : String) (us : List String)
    (v : String) (h : headerGet dst k = none) :
    headerAdd (dst ++ [(k, us)]) k v = dst ++ [(k, us ++ [v])] := by
  induction dst with
  | nil => simp [headerAdd]
  | cons kv rest ih =>
    obtain ⟨k2, vs⟩ := kv
    by_cases hk : k2 == k
    · simp [headerGet, hk] at h
    · simp [headerGet, hk] at h
      simp [headerAdd, hk, ih h]

/-- Adding all values of an absent key appends one entry holding them
in order. -/
theorem headerAddValues_of_absent (dst : Header) (k : String)
    (v : String) (vs : List String) (h : headerGet dst k = none) :
    headerAddValues dst k (v :: vs) = dst ++ [(k, v :: vs)] := by
  suffices haux : ∀ (ws : List String) (us : List String),
      headerAddValues (dst ++ [(k, us)]) k ws = dst ++ [(k, us ++ ws)] by
    rw [headerAddValues, headerAdd_of_absent dst k v h, haux vs [v]]
    simp
  intro ws
  induction ws with
  | nil => intro us; simp [headerAddValues]
  | cons w ws ih =>
    intro us
    rw [headerAddValues, headerAdd_last dst k us w h, ih (us ++ [w])]
    simp

/-- Keys absent from both parts are absent from the concatenation. -/
theorem headerGet_append_of_absent (d1 d2 : Header) (k : String)
    (h1 : headerGet d1 k = none) :
    headerGet (d1 ++ d2) k = headerGet d2 k := by
  induction d1 with
  | nil => rfl
  | cons kv rest ih =>
    obtain ⟨k2, vs⟩ := kv
    by_cases hk : k2 == k
    · simp [headerGet, hk] at h1
    · simp [headerGet, hk] at h1
      simp [headerGet, hk, ih h1]

/-- `copyHeaders` into a disjoint destination equals the destination
followed by the source filtered by the hop-by-hop predicate, provided the
source keys are distinct and every entry has at least one value. -/
theorem copyHeaders_eq_append_filter (src : Header) :
    ∀ dst : Header,
      (∀ kv ∈ src, headerGet dst kv.1 = none) →
      (headerKeys src).Nodup →
      (∀ kv ∈ src, kv.2 ≠ []) →
      copyHeaders dst src =
        dst ++ src.filter (fun kv => !hopByHopHeader kv.1) := by
  induction src with
  | nil => intro dst _ _ _; simp [copyHeaders]
  | cons kv rest ih =>
    intro dst hdisj hnodup hvals
    obtain ⟨k, vs⟩ := kv
    have hnodup2 : k ∉ headerKeys rest ∧ (headerKeys rest).Nodup := by
      rw [show headerKeys ((k, vs) :: rest) = k :: headerKeys rest from rfl]
        at hnodup
      exact List.nodup_cons.mp hnodup
    have hknotrest : ∀ kv2 ∈ rest, kv2.1 ≠ k := by
      intro kv2 hkv2 he
      exact hnodup2.1 (he ▸ List.mem_map_of_mem Prod.fst hkv2)
    by_cases hhop : hopByHopHeader k
    · rw [copyHeaders, if_pos hhop]
      rw [ih dst (fun kv2 h2 => hdisj kv2 (List.mem_cons_of_mem _ h2))
        hnodup2.2
        (fun kv2 h2 => hvals kv2 (List.mem_cons_of_mem _ h2))]
      simp [hhop]
    · rw [copyHeaders, if_neg hhop]
      have hvs : vs ≠ [] := hvals (k, vs) (List.mem_cons_self _ _)
      obtain ⟨v, vs2, rfl⟩ := List.exists_cons_of_ne_nil hvs
      have habsent : headerGet dst k = none :=
        hdisj (k, v :: vs2) (List.mem_cons_self _ _)
      rw [headerAddValues_of_absent dst k v vs2 habsent]
      rw [ih (dst ++ [(k, v :: vs2)]) ?disj
        hnodup2.2
        (fun kv2 h2 => hvals kv2 (List.mem_cons_of_mem _ h2))]
      · simp [hhop]
      case disj =>
        intro kv2 h2
        rw [headerGet_append_of_absent _ _ _
          (hdisj kv2 (List.mem_cons_of_mem _ h2))]
        have hne : ¬(k == kv2.1) = true := by
          simp only [beq_iff_eq]
          exact fun he => hknotrest kv2 h2 he.symm
        simp [headerGet, hne]

/-- A hop-by-hop key never survives the filter. -/
theorem headerGet_filter_hop (src : Header) (k : String)
    (h : hopByHopHeader k = true) :
    headerGet (src.filter (fun kv => !hopByHopHeader kv.1)) k = none := by
  induction src with
  | nil => rfl
  | cons kv rest ih =>
    obtain ⟨k2, vs⟩ := kv
    by_cases hh : hopByHopHeader k2
    · simp [List.filter_cons, hh, ih]
    · have hne : ¬(k2 == k) = true := by
        simp only [beq_iff_eq]
        intro he
        rw [he, h] at hh
        exact hh rfl
      simp [List.filter_cons, hh, headerGet, hne, ih]

/-- A non-hop-by-hop key's value list is untouched by the filter. -/
theorem headerGet_filter_keep (src : Header) (k : String)
    (h : hopByHopHeader k = false) :
    headerGet (src.filter (fun kv => !hopByHopHeader kv.1)) k =
      headerGet src k := by
  induction src with
  | nil => rfl
  | cons kv rest ih =>
    obtain ⟨k2, vs⟩ := kv
    by_cases hk : k2 == k
    · have he : k2 = k := by simpa using hk
      have hh : hopByHopHeader k2 = false := by rw [he, h]
      simp [List.filter_cons, hh, headerGet, hk, ih]
    · by_cases hh : hopByHopHeader k2
      · simp [List.filter_cons, hh, headerGet, hk, ih]
      · simp [List.filter_cons, hh, headerGet, hk, ih]

/-- C7: `copyHeaders` (used for both the outbound request and the
relayed response, each into a fresh header map) removes exactly the nine
hop-by-hop keys and passes every other key through with its full value
list unchanged (multi-valued headers preserved), given the distinct keys
and non-empty value lists of a Go header map. -/
theorem c7_header_filter (src : Header)
    (hnodup : (headerKeys src).Nodup)
    (hvals : ∀ kv ∈ src, kv.2 ≠ []) :
    (∀ k, hopByHopHeader k = true →
      headerGet (copyHeaders [] src) k = none) ∧
    (∀ k, hopByHopHeader k = false →
      headerGet (copyHeaders [] src) k = headerGet src k) ∧
    (∀ k, hopByHopHeader k = true ↔
      k ∈ ["Connection", "Keep-Alive", "Proxy-Authenticate",
           "Proxy-Authorization", "Proxy-Connection", "Te", "Trailer",
           "Transfer-Encoding", "Upgrade"]) := by
  have hcp : copyHeaders [] src =
      src.filter (fun kv => !hopByHopHeader kv.1) := by
    simpa using
      copyHeaders_eq_append_filter src [] (fun kv _ => rfl) hnodup hvals
  refine ⟨?_, ?_, ?_⟩
  · intro k hk
    rw [hcp]
    exact headerGet_filter_hop src k hk
  · intro k hk
    rw [hcp]
    exact headerGet_filter_keep src k hk
  · intro k
    simp [hopByHopHeader]
    tauto

/-- C7 witness: on a concrete header map, `Connection` is removed while
the multi-valued `Set-Cookie` passes through with both values. -/
theorem c7_header_filter_witness :
    headerGet (copyHeaders [] [("Connection", ["keep-alive"]),
      ("Content-Type", ["text/html"]), ("Set-Cookie", ["a=1", "b=2"])])
      "Connection" = none ∧
    headerGet (copyHeaders [] [("Connection", ["keep-alive"]),
      ("Content-Type", ["text/html"]), ("Set-Cookie", ["a=1", "b=2"])])
      "Set-Cookie" =
      headerGet [("Connection", ["keep-alive"]),
        ("Content-Type", ["text/html"]), ("Set-Cookie", ["a=1", "b=2"])]
        "Set-Cookie" :=
  ⟨(c7_header_filter [("Connection", ["keep-alive"]),
      ("Content-Type", ["text/html"]), ("Set-Cookie", ["a=1", "b=2"])]
      (by decide) (by decide)).1 "Connection" (by decide),
   (c7_header_filter [("Connection", ["keep-alive"]),
      ("Content-Type", ["text/html"]), ("Set-Cookie", ["a=1", "b=2"])]
      (by decide) (by decide)).2.1 "Set-Cookie" (by decide)⟩
